import Mathlib

/-!
Verification of the whisper-typer core: the global hotkey detection
subsystem and the recording/transcription control state machine.

Shallow embedding of `src/hotkey.cpp`, `src/typer.cpp` and
`src/text-output.cpp`.  Machine integers become `Nat`/`Int`, time is
measured in non-negative milliseconds (`Nat`, matching the
`steady_clock` millisecond counts which are always non-negative),
C strings become `List Char`, and the external collaborators (audio
ring buffer, `vad_simple`, the whisper transcription engine, the
`xclip`/`xdotool` subprocesses) appear as oracle inputs to the pure
step functions.
-/

/-! ## Evdev key codes (linux/input-event-codes.h values used by the source) -/

def KEY_ESC : Nat := 1
def KEY_1 : Nat := 2
def KEY_0 : Nat := 11
def KEY_MINUS : Nat := 12
def KEY_EQUAL : Nat := 13
def KEY_BACKSPACE : Nat := 14
def KEY_TAB : Nat := 15
def KEY_LEFTBRACE : Nat := 26
def KEY_RIGHTBRACE : Nat := 27
def KEY_ENTER : Nat := 28
def KEY_LEFTCTRL : Nat := 29
def KEY_SEMICOLON : Nat := 39
def KEY_APOSTROPHE : Nat := 40
def KEY_GRAVE : Nat := 41
def KEY_LEFTSHIFT : Nat := 42
def KEY_BACKSLASH : Nat := 43
def KEY_COMMA : Nat := 51
def KEY_DOT : Nat := 52
def KEY_SLASH : Nat := 53
def KEY_RIGHTSHIFT : Nat := 54
def KEY_LEFTALT : Nat := 56
def KEY_SPACE : Nat := 57
def KEY_CAPSLOCK : Nat := 58
def KEY_F1 : Nat := 59
def KEY_F10 : Nat := 68
def KEY_F11 : Nat := 87
def KEY_F12 : Nat := 88
def KEY_RIGHTCTRL : Nat := 97
def KEY_SYSRQ : Nat := 99
def KEY_RIGHTALT : Nat := 100
def KEY_HOME : Nat := 102
def KEY_UP : Nat := 103
def KEY_PAGEUP : Nat := 104
def KEY_LEFT : Nat := 105
def KEY_RIGHT : Nat := 106
def KEY_END : Nat := 107
def KEY_DOWN : Nat := 108
def KEY_PAGEDOWN : Nat := 109
def KEY_INSERT : Nat := 110
def KEY_DELETE : Nat := 111
def KEY_PAUSE : Nat := 119
def KEY_LEFTMETA : Nat := 125
def KEY_RIGHTMETA : Nat := 126

def KEY_A : Nat := 30
def KEY_V : Nat := 47

def EV_KEY : Nat := 1

/-! ## Modifier flags (hotkey.cpp, anonymous enum) -/

def MOD_CTRL : Nat := 1
def MOD_SHIFT : Nat := 2
def MOD_ALT : Nat := 4
def MOD_SUPER : Nat := 8

/-- Test of a modifier bit in a required-modifier mask, the embedding of
the C expression `modmask & MOD_X` used as a boolean. -/
def hasMod (modmask bit : Nat) : Bool := modmask &&& bit != 0

/-! ## ModifierState and the exact-match predicate (hotkey.cpp, HotkeyListener::Impl) -/

/-- Live pressed state of the eight physical modifier keys
(`HotkeyListener::Impl` fields). -/
structure ModifierState where
  ctrl_l : Bool
  ctrl_r : Bool
  shift_l : Bool
  shift_r : Bool
  alt_l : Bool
  alt_r : Bool
  super_l : Bool
  super_r : Bool
deriving DecidableEq, Repr

/-- All eight modifier booleans false, the reset state. -/
def allModsFalse : ModifierState :=
  ⟨false, false, false, false, false, false, false, false⟩

/-- Embedding of `HotkeyListener::Impl::mods_match` (hotkey.cpp lines 40-59):
required modifiers must be held and extra modifiers must not be held,
over the OR-combined logical modifier state. -/
def mods_match (s : ModifierState) (modmask : Nat) : Bool :=
  let ctrl := s.ctrl_l || s.ctrl_r
  let shift := s.shift_l || s.shift_r
  let alt := s.alt_l || s.alt_r
  let super := s.super_l || s.super_r
  if hasMod modmask MOD_CTRL && !ctrl then false
  else if hasMod modmask MOD_SHIFT && !shift then false
  else if hasMod modmask MOD_ALT && !alt then false
  else if hasMod modmask MOD_SUPER && !super then false
  else if !hasMod modmask MOD_CTRL && ctrl then false
  else if !hasMod modmask MOD_SHIFT && shift then false
  else if !hasMod modmask MOD_ALT && alt then false
  else if !hasMod modmask MOD_SUPER && super then false
  else true

/-- Embedding of `HotkeyListener::Impl::update_modifier` (hotkey.cpp 61-72). -/
def update_modifier (code : Nat) (pressed : Bool) (s : ModifierState) : ModifierState :=
  if code = KEY_LEFTCTRL then { s with ctrl_l := pressed }
  else if code = KEY_RIGHTCTRL then { s with ctrl_r := pressed }
  else if code = KEY_LEFTSHIFT then { s with shift_l := pressed }
  else if code = KEY_RIGHTSHIFT then { s with shift_r := pressed }
  else if code = KEY_LEFTALT then { s with alt_l := pressed }
  else if code = KEY_RIGHTALT then { s with alt_r := pressed }
  else if code = KEY_LEFTMETA then { s with super_l := pressed }
  else if code = KEY_RIGHTMETA then { s with super_r := pressed }
  else s

/-- Embedding of `HotkeyListener::Impl::is_modifier` (hotkey.cpp 74-79). -/
def is_modifier (code : Nat) : Bool :=
  code == KEY_LEFTCTRL || code == KEY_RIGHTCTRL ||
  code == KEY_LEFTSHIFT || code == KEY_RIGHTSHIFT ||
  code == KEY_LEFTALT || code == KEY_RIGHTALT ||
  code == KEY_LEFTMETA || code == KEY_RIGHTMETA

/-! ## Character helpers for the string-processing code -/

/-- Characters of a string literal. -/
def chars (s : String) : List Char := s.data

/-- Embedding of C `std::tolower` on an unsigned char in the C locale,
restricted to its effect on the bytes the source feeds it. -/
def tolowerChar (c : Char) : Char :=
  if 'A' ≤ c ∧ c ≤ 'Z' then Char.ofNat (c.toNat + 32) else c

/-- Embedding of C `std::isspace` in the C locale: space, tab, newline,
vertical tab, form feed, carriage return. -/
def isSpaceC (c : Char) : Bool :=
  c = ' ' || c = Char.ofNat 9 || c = Char.ofNat 10 || c = Char.ofNat 11 ||
  c = Char.ofNat 12 || c = Char.ofNat 13

/-- Embedding of C `isdigit`. -/
def isDigitC (c : Char) : Bool := '0' ≤ c && c ≤ '9'

/-! ## KeyNameResolver (hotkey.cpp, name_to_evdev) -/

/-- The `letter_codes` table of `name_to_evdev` (hotkey.cpp 97-101):
evdev codes for letters a..z in order. -/
def letter_codes : List Nat :=
  [30, 48, 46, 32, 18, 33, 34, 35, 23,
   36, 37, 38, 50, 49, 24, 25, 16, 19,
   31, 20, 22, 47, 17, 45, 21, 44]

/-- Parse the digit tail of an f-key name (the loop at hotkey.cpp 146-149):
accumulates `n = n*10 + digit`, fails on any non-digit character. -/
def fkeyDigits (n : Nat) : List Char → Option Nat
  | [] => some n
  | c :: cs => if isDigitC c then fkeyDigits (n * 10 + (c.toNat - 48)) cs else none

/-- The named-key table of `name_to_evdev` (hotkey.cpp 112-140).
Symbol spellings that the character-literal syntax cannot write directly
use `Char.ofNat` (39 = apostrophe, 96 = grave accent). -/
def named_key_code (lower : List Char) : Int :=
  if lower = chars "space" then KEY_SPACE
  else if lower = chars "period" ∨ lower = chars "dot" ∨ lower = ['.'] then KEY_DOT
  else if lower = chars "comma" ∨ lower = [','] then KEY_COMMA
  else if lower = chars "slash" ∨ lower = ['/'] then KEY_SLASH
  else if lower = chars "backslash" ∨ lower = ['\\'] then KEY_BACKSLASH
  else if lower = chars "semicolon" ∨ lower = [';'] then KEY_SEMICOLON
  else if lower = chars "apostrophe" ∨ lower = [Char.ofNat 39] then KEY_APOSTROPHE
  else if lower = chars "grave" ∨ lower = [Char.ofNat 96] then KEY_GRAVE
  else if lower = chars "minus" ∨ lower = ['-'] then KEY_MINUS
  else if lower = chars "equal" ∨ lower = ['='] then KEY_EQUAL
  else if lower = chars "leftbrace" ∨ lower = ['['] then KEY_LEFTBRACE
  else if lower = chars "rightbrace" ∨ lower = [']'] then KEY_RIGHTBRACE
  else if lower = chars "enter" ∨ lower = chars "return" then KEY_ENTER
  else if lower = chars "tab" then KEY_TAB
  else if lower = chars "backspace" then KEY_BACKSPACE
  else if lower = chars "escape" ∨ lower = chars "esc" then KEY_ESC
  else if lower = chars "delete" ∨ lower = chars "del" then KEY_DELETE
  else if lower = chars "insert" ∨ lower = chars "ins" then KEY_INSERT
  else if lower = chars "home" then KEY_HOME
  else if lower = chars "end" then KEY_END
  else if lower = chars "pageup" then KEY_PAGEUP
  else if lower = chars "pagedown" then KEY_PAGEDOWN
  else if lower = chars "up" then KEY_UP
  else if lower = chars "down" then KEY_DOWN
  else if lower = chars "left" then KEY_LEFT
  else if lower = chars "right" then KEY_RIGHT
  else if lower = chars "capslock" then KEY_CAPSLOCK
  else if lower = chars "print" ∨ lower = chars "sysrq" then KEY_SYSRQ
  else if lower = chars "pause" then KEY_PAUSE
  -- F-keys: KEY_F1..KEY_F10 are contiguous, KEY_F11/KEY_F12 are not adjacent
  else if 2 ≤ lower.length ∧ lower.headD ' ' = 'f' then
    match fkeyDigits 0 lower.tail with
    | none => -1
    | some n =>
      if 1 ≤ n ∧ n ≤ 12 then
        if n ≤ 10 then (KEY_F1 : Int) + ((n : Int) - 1)
        else if n = 11 then KEY_F11
        else KEY_F12
      else -1
  else -1

/-- Embedding of `name_to_evdev` (hotkey.cpp 90-158): lowercase the name,
try single letters, then single digits, then the named-key table and
the f-key branch; -1 means "not found". -/
def name_to_evdev (name : List Char) : Int :=
  let lower := name.map tolowerChar
  if lower.length = 1 ∧ 'a' ≤ lower.headD ' ' ∧ lower.headD ' ' ≤ 'z' then
    letter_codes.getD ((lower.headD ' ').toNat - 97) 0
  else if lower.length = 1 ∧ isDigitC (lower.headD ' ') then
    if lower.headD ' ' = '0' then (KEY_0 : Int)
    else (KEY_1 : Int) + ((lower.headD ' ').toNat - 49)
  else named_key_code lower

/-! ## HotkeySpec parsing (hotkey.cpp, HotkeyListener::init, lines 225-273)

The string-parsing portion of `init` is embedded here.  The subsequent
`open_keyboards()` device scan (lines 276-282) is operating-system I/O
and is modelled separately for the rescan claim; this function captures
exactly the parsing that decides success or failure of the hotkey
specification itself. -/

/-- Split on a plus sign, accumulating the current token in reverse.
Together with the empty-token filter below this reproduces the
`std::getline(ss, part, '+')` tokenization of hotkey.cpp 230-236. -/
def splitPlus : List Char → List Char → List (List Char)
  | [], acc => [acc.reverse]
  | c :: cs, acc =>
      if c = '+' then acc.reverse :: splitPlus cs [] else splitPlus cs (c :: acc)

/-- Trim leading and trailing `isspace` characters from a token
(hotkey.cpp 231-232). -/
def trimC (s : List Char) : List Char :=
  (((s.dropWhile isSpaceC).reverse).dropWhile isSpaceC).reverse

/-- Tokenization of a hotkey string: split on plus, trim each token,
drop empty tokens (hotkey.cpp 227-236). -/
def hotkey_tokens (s : String) : List (List Char) :=
  ((splitPlus s.data []).map trimC).filter (· ≠ [])

/-- Recognition of a single modifier token (hotkey.cpp 248-263):
lowercased comparison against the four alias families. -/
def parse_mod (t : List Char) : Option Nat :=
  let m := t.map tolowerChar
  if m = chars "ctrl" ∨ m = chars "control" then some MOD_CTRL
  else if m = chars "shift" then some MOD_SHIFT
  else if m = chars "alt" then some MOD_ALT
  else if m = chars "super" ∨ m = chars "super_l" ∨ m = chars "super_r" ∨
          m = chars "mod4" ∨ m = chars "meta" then some MOD_SUPER
  else none

/-- OR-accumulation of the modifier tokens (the loop at hotkey.cpp 247-264);
fails on the first unrecognized modifier. -/
def parse_mods (acc : Nat) : List (List Char) → Option Nat
  | [] => some acc
  | t :: ts =>
      match parse_mod t with
      | none => none
      | some b => parse_mods (acc ||| b) ts

/-- Parsed hotkey: trigger key code and required-modifier mask
(`Impl::key_code`, `Impl::modmask`). -/
structure HotkeySpec where
  key_code : Int
  modmask : Nat
deriving DecidableEq, Repr

/-- Embedding of the parsing portion of `HotkeyListener::init`
(hotkey.cpp 225-273): tokenize; fail on an empty token list; the last
token is the key name, the preceding tokens must all be modifiers; fail
if the key name does not resolve. -/
def hotkey_init (s : String) : Option HotkeySpec :=
  match hotkey_tokens s with
  | [] => none
  | p :: ps =>
      match parse_mods 0 ((p :: ps).dropLast) with
      | none => none
      | some mask =>
          let kc := name_to_evdev ((p :: ps).getLast (List.cons_ne_nil p ps))
          if kc < 0 then none else some ⟨kc, mask⟩

/-! ## Edge flags and the poll accessors (hotkey.h / hotkey.cpp 314-320) -/

/-- The two atomic event flags `m_event_press` / `m_event_release`. -/
structure EdgeFlags where
  press : Bool
  release : Bool
deriving DecidableEq, Repr

/-- Embedding of `HotkeyListener::poll_pressed` (hotkey.cpp 314-316):
`m_event_press.exchange(false)` returns the old value and clears the flag. -/
def poll_pressed (f : EdgeFlags) : Bool × EdgeFlags :=
  (f.press, { f with press := false })

/-- Embedding of `HotkeyListener::poll_released` (hotkey.cpp 318-320). -/
def poll_released (f : EdgeFlags) : Bool × EdgeFlags :=
  (f.release, { f with release := false })

/-- What the listener thread does on a hotkey activation
(hotkey.cpp 390: `m_event_press = true`). -/
def set_press_flag (f : EdgeFlags) : EdgeFlags := { f with press := true }

/-- What the listener thread does on a hotkey deactivation
(hotkey.cpp 396: `m_event_release = true`). -/
def set_release_flag (f : EdgeFlags) : EdgeFlags := { f with release := true }

/-- Results of `k` successive `poll_pressed` calls threading the flag state. -/
def poll_pressed_results : Nat → EdgeFlags → List Bool
  | 0, _ => []
  | Nat.succ k, f => (poll_pressed f).1 :: poll_pressed_results k (poll_pressed f).2

/-- Results of `k` successive `poll_released` calls threading the flag state. -/
def poll_released_results : Nat → EdgeFlags → List Bool
  | 0, _ => []
  | Nat.succ k, f => (poll_released f).1 :: poll_released_results k (poll_released f).2

/-! ## Event processing in the listener thread (hotkey.cpp 374-412)

One iteration of the inner event loop, for a single successfully read
input event.  The press flag, release flag and the optional user
callback are all modelled; callback invocations are returned as the
list of `key_down` arguments, in order. -/

/-- One input event (`struct input_event` fields the code reads). -/
structure KeyEv where
  type : Nat
  code : Nat
  value : Nat
deriving DecidableEq, Repr

/-- Listener-thread state touched by event processing: the modifier
tracker, the local `hotkey_active` flag, and the two edge flags. -/
structure ThreadState where
  mods : ModifierState
  hotkey_active : Bool
  flags : EdgeFlags
deriving DecidableEq, Repr

/-- Embedding of the per-event body of `HotkeyListener::listen_thread`
(hotkey.cpp 374-412): skip non-key events and repeats, update the
modifier tracker, handle the trigger key (activate on press under an
exact modifier match when not already active, deactivate on release
when active), then force-deactivate if a modifier release broke the
match while the hotkey was active.  Returns the new state and the list
of callback arguments emitted. -/
def process_event (key_code : Nat) (modmask : Nat) (ev : KeyEv) (s : ThreadState) :
    ThreadState × List Bool :=
  if ev.type ≠ EV_KEY then (s, [])
  else
    let pressed := ev.value == 1
    let released := ev.value == 0
    if !pressed && !released then (s, [])
    else
      let s :=
        if is_modifier ev.code then { s with mods := update_modifier ev.code pressed s.mods }
        else s
      let step1 : ThreadState × List Bool :=
        if ev.code = key_code then
          if pressed && mods_match s.mods modmask && !s.hotkey_active then
            ({ s with hotkey_active := true, flags := set_press_flag s.flags }, [true])
          else if released && s.hotkey_active then
            ({ s with hotkey_active := false, flags := set_release_flag s.flags }, [false])
          else (s, [])
        else (s, [])
      let s1 := step1.1
      if released && is_modifier ev.code && s1.hotkey_active then
        if mods_match s1.mods modmask then (s1, step1.2)
        else ({ s1 with hotkey_active := false, flags := set_release_flag s1.flags },
              step1.2 ++ [false])
      else (s1, step1.2)

/-! ## Device rescan (hotkey.cpp 167-169 and 326-348)

Device enumeration is operating-system I/O; the devices the scan finds
are an oracle input `found` (handles of the devices that pass the
keyboard checks of `open_keyboards`).  What is modelled is the handle
bookkeeping: `open_keyboards` first closes every previously held handle
(`close_all_fds`, hotkey.cpp 169) and then holds exactly the freshly
found ones; the rescan branch of the listener loop resets the modifier
tracker and the active flag before scanning. -/

/-- Listener-loop state for the rescan branch: modifier tracker, local
`hotkey_active` and `needs_rescan` flags, and the open device handles. -/
structure ListenerState where
  mods : ModifierState
  hotkey_active : Bool
  needs_rescan : Bool
  fds : List Nat
deriving DecidableEq, Repr

/-- Embedding of `HotkeyListener::open_keyboards` (hotkey.cpp 167-223)
at the level of handle ownership: close all previously held handles,
then hold the handles found by the scan; returns success iff the scan
found at least one keyboard. -/
def open_keyboards (found : List Nat) (s : ListenerState) : ListenerState × Bool :=
  let s := { s with fds := [] }
  let s := { s with fds := found }
  (s, !found.isEmpty)

/-- Embedding of the rescan branch at the top of the listener loop
(hotkey.cpp 328-348): when `needs_rescan` is set, clear it, reset all
eight modifier booleans and the active-hotkey flag, then rescan; if the
scan finds no devices the flag is set again for a later retry (the
backoff sleep has no state content). -/
def rescan_step (found : List Nat) (s : ListenerState) : ListenerState :=
  if s.needs_rescan then
    let s := { s with needs_rescan := false }
    let s := { s with mods := allModsFalse }
    let s := { s with hotkey_active := false }
    let r := open_keyboards found s
    if r.2 then r.1 else { r.1 with needs_rescan := true }
  else s

/-! ## The recording/transcription state machine (typer.cpp 379-543)

Time is a `Nat` count of milliseconds on the monotone clock.  The
external collaborators appear as oracle inputs: the poll results and
the toggle signal, the size of the trailing audio window fetched by
`audio.get(2000, vad_buf)`, the verdict of the external `vad_simple`
(consulted only when the code actually calls it), the fetched full
recording, and the text returned by the external transcription engine. -/

def WHISPER_SAMPLE_RATE : Nat := 16000

/-- Embedding of `vad_min_samples` (typer.cpp 382). -/
def vad_min_samples : Nat := WHISPER_SAMPLE_RATE * 2 + 1

/-- The `State` enum of typer.cpp 385. -/
inductive TState where
  | IDLE
  | RECORDING
  | TRANSCRIBING
deriving DecidableEq, Repr

/-- The parameters of `typer_params` that the recording state machine
reads (typer.cpp 49-55). -/
structure typer_params where
  silence_ms : Nat
  max_record_ms : Nat
  push_to_talk : Bool
deriving DecidableEq, Repr

/-- Session state of the machine (typer.cpp 386-391). -/
structure Session where
  state : TState
  record_start : Nat
  silence_start : Nat
  speech_detected : Bool
deriving DecidableEq, Repr

/-- Per-iteration oracle inputs to the RECORDING branch. -/
structure RecInput where
  released_edge : Bool
  pressed_edge : Bool
  sigusr1 : Bool
  now : Nat
  vad_len : Nat
  vad_silent : Bool
deriving DecidableEq, Repr

/-- The manual stop condition (typer.cpp 432-438): a hotkey release edge
in push-to-talk mode, a hotkey press edge or the SIGUSR1 toggle signal
in toggle mode. -/
def stop_trigger (p : typer_params) (inp : RecInput) : Bool :=
  if p.push_to_talk then inp.released_edge else inp.pressed_edge || inp.sigusr1

/-- Embedding of one iteration of the `State::RECORDING` branch
(typer.cpp 430-501).  A manual stop inside the 300 ms debounce window is
dropped; past it, it forces `speech_detected` and moves to TRANSCRIBING.
Then the max-recording-time check, then the VAD block guarded by the
minimum sample count. -/
def recording_step (p : typer_params) (inp : RecInput) (s : Session) : Session :=
  if stop_trigger p inp then
    if inp.now - s.record_start < 300 then s
    else { s with speech_detected := true, state := TState.TRANSCRIBING }
  else if p.max_record_ms ≤ inp.now - s.record_start then
    { s with state := TState.TRANSCRIBING }
  else if vad_min_samples ≤ inp.vad_len then
    let s :=
      if !inp.vad_silent then { s with speech_detected := true, silence_start := inp.now }
      else s
    if s.speech_detected && decide (p.silence_ms ≤ inp.now - s.silence_start) then
      { s with state := TState.TRANSCRIBING }
    else s
  else s

/-! ## The TRANSCRIBING branch (typer.cpp 503-543) -/

/-- Observable outcome of one pass through the TRANSCRIBING branch. -/
structure TransResult where
  next : TState
  engine_invoked : Bool
  injected : Option (List Char)
deriving DecidableEq, Repr

/-- Modelled from the spec: the `::trim` helper applied to the engine
output lives in the external whisper.cpp common library, not in this
repository; the spec describes it as removing incidental leading and
trailing whitespace, embedded here over `List Char`. -/
def trim (s : List Char) : List Char :=
  (((s.dropWhile isSpaceC).reverse).dropWhile isSpaceC).reverse

/-- Embedding of the `State::TRANSCRIBING` branch (typer.cpp 503-543).
`pcmf32` is the span fetched from the audio buffer, `speech_detected`
the session flag on entry, `engine_out` the text the external engine
would return if invoked.  If the fetch is empty or no speech was
detected the engine is not invoked and nothing is injected; otherwise
the engine output is trimmed and injected only when non-empty.  The
machine returns to IDLE in every case. -/
def transcribing_step {α : Type} (pcmf32 : List α) (speech_detected : Bool)
    (engine_out : List Char) : TransResult :=
  if pcmf32.isEmpty then ⟨TState.IDLE, false, none⟩
  else if !speech_detected then ⟨TState.IDLE, false, none⟩
  else
    let text := trim engine_out
    if !text.isEmpty then ⟨TState.IDLE, true, some text⟩
    else ⟨TState.IDLE, true, none⟩

/-! ## Text output (text-output.cpp)

The `xclip`/`xdotool` subprocesses are external; their results are an
oracle record, and each `run_cmd` invocation is logged in order by the
name of the operation it performs.  The clipboard content is the one
piece of external state the component reads and writes. -/

/-- Oracle for the external commands `type_clipboard`/`type_xdotool` run:
success of each subprocess and the raw stdout the window queries return. -/
structure CmdEnv where
  xclip_write_ok : Bool
  getactivewindow_ok : Bool
  window_id_raw : List Char
  getwindowclassname_ok : Bool
  window_class_raw : List Char
  paste_ok : Bool
  xdotool_type_ok : Bool
deriving DecidableEq, Repr

/-- External state visible to the text-output component: the clipboard
content and the ordered log of subprocess invocations. -/
structure OutWorld where
  clipboard : List Char
  log : List (List Char)
deriving DecidableEq, Repr

/-- Strip trailing newline and carriage-return characters
(text-output.cpp 195-197 and 207-209). -/
def  strip_crlf (s : List Char) : List Char :=
  (s.reverse.dropWhile (fun c => c = Char.ofNat 10 || c = Char.ofNat 13)).reverse

/-- The known-terminal table of `TextOutput::is_terminal_class`
(text-output.cpp 257-285). -/
def terminal_classes : List (List Char) :=
  [chars "alacritty", chars "kitty", chars "gnome-terminal",
   chars "gnome-terminal-server", chars "xterm", chars "uxterm",
   chars "konsole", chars "xfce4-terminal", chars "terminator",
   chars "tilix", chars "urxvt", chars "st-256color", chars "st",
   chars "foot", chars "wezterm", chars "terminal", chars "ghostty",
   chars "rio", chars "contour", chars "hyper", chars "tabby",
   chars "sakura", chars "guake", chars "tilda", chars "yakuake",
   chars "terminology"]

/-- Embedding of `TextOutput::is_terminal_class` (text-output.cpp 251-294):
lowercase the class name and compare against the table. -/
def  is_terminal_class (cls : List Char) : Bool :=
  terminal_classes.contains (cls.map tolowerChar)

/-- Embedding of `TextOutput::type_clipboard` (text-output.cpp 163-249):
save the clipboard, set it to the text, find and classify the active
window, send the paste keystroke (ctrl+shift+v for terminals, ctrl+v
otherwise), restore the saved clipboard; the return value is the paste
outcome.  A failed clipboard write aborts with false. -/
def type_clipboard (env : CmdEnv) (text : List Char) (w : OutWorld) : Bool × OutWorld :=
  let saved := w.clipboard
  let w := { w with log := w.log ++ [chars "xclip read clipboard"] }
  let w := { w with log := w.log ++ [chars "xclip write clipboard"] }
  if !env.xclip_write_ok then (false, w)
  else
    let w := { w with clipboard := text }
    let w := { w with log := w.log ++ [chars "xdotool getactivewindow"] }
    let window_id := if env.getactivewindow_ok then strip_crlf env.window_id_raw else []
    let classify : Bool × OutWorld :=
      if !window_id.isEmpty then
        let w := { w with log := w.log ++ [chars "xdotool getwindowclassname"] }
        if env.getwindowclassname_ok then
          (is_terminal_class (strip_crlf env.window_class_raw), w)
        else (false, w)
      else (false, w)
    let is_terminal := classify.1
    let w := classify.2
    let paste_name := if is_terminal then chars "xdotool key ctrl+shift+v"
                      else chars "xdotool key ctrl+v"
    let w := { w with log := w.log ++ [paste_name] }
    let w := { w with log := w.log ++ [chars "xclip write clipboard"] }
    let w := { w with clipboard := saved }
    (env.paste_ok, w)

/-- Embedding of `TextOutput::type_xdotool` (text-output.cpp 147-161):
one `xdotool type` invocation. -/
def type_xdotool (env : CmdEnv) (w : OutWorld) : Bool × OutWorld :=
  (env.xdotool_type_ok, { w with log := w.log ++ [chars "xdotool type"] })

/-- Embedding of `TextOutput::type` (text-output.cpp 40-48): empty text
returns true immediately; otherwise dispatch on the clipboard setting. -/
def TextOutput.type (env : CmdEnv) (use_clipboard : Bool) (text : List Char)
    (w : OutWorld) : Bool × OutWorld :=
  if text.isEmpty then (true, w)
  else if use_clipboard then type_clipboard env text w
  else type_xdotool env w

/-! ## The recognized key-name set (for the key-name resolver claim)

Two definitions written from the specification's words rather than from
the code, to compare with `name_to_evdev`: the recognized set exactly as
the spec lists it (letters, digits, the named-key table, and the twelve
spellings f1-f12), and the recognized set with the f-key spellings the
resolver's digit loop actually accepts (an f followed by any digit
string whose value is 1-12, so leading-zero spellings also resolve). -/

/-- Spellings accepted by the named-key table (hotkey.cpp 112-140). -/
def named_key_names : List (List Char) :=
  [chars "space", chars "period", chars "dot", ['.'], chars "comma", [','],
   chars "slash", ['/'], chars "backslash", ['\\'], chars "semicolon", [';'],
   chars "apostrophe", [Char.ofNat 39], chars "grave", [Char.ofNat 96],
   chars "minus", ['-'], chars "equal", ['='], chars "leftbrace", ['['],
   chars "rightbrace", [']'], chars "enter", chars "return", chars "tab",
   chars "backspace", chars "escape", chars "esc", chars "delete", chars "del",
   chars "insert", chars "ins", chars "home", chars "end", chars "pageup",
   chars "pagedown", chars "up", chars "down", chars "left", chars "right",
   chars "capslock", chars "print", chars "sysrq", chars "pause"]

/-- The twelve literal f-key spellings the spec names. -/
def fkey_literal_names : List (List Char) :=
  [chars "f1", chars "f2", chars "f3", chars "f4", chars "f5", chars "f6",
   chars "f7", chars "f8", chars "f9", chars "f10", chars "f11", chars "f12"]

/-- An f followed by a digit string whose value is between 1 and 12: the
f-key names the resolver's digit loop actually accepts. -/
def is_fkey_name (lower : List Char) : Bool :=
  decide (2 ≤ lower.length) && (lower.headD ' ' == 'f') &&
    match fkeyDigits 0 lower.tail with
    | none => false
    | some n => decide (1 ≤ n) && decide (n ≤ 12)

/-- Modelled from the spec: the recognized key-name set exactly as the
specification lists it — single letters, single digits, the named-key
table and the twelve f-key spellings f1-f12 — all case-insensitively. -/
def recognized_key_name_strict (name : List Char) : Bool :=
  let lower := name.map tolowerChar
  decide (lower.length = 1 ∧ 'a' ≤ lower.headD ' ' ∧ lower.headD ' ' ≤ 'z')
  || decide (lower.length = 1 ∧ isDigitC (lower.headD ' ') = true)
  || decide (lower ∈ named_key_names)
  || decide (lower ∈ fkey_literal_names)

/-- The recognized key-name set as amended: the f-key spellings are an f
followed by a digit string with value 1-12 rather than only the twelve
literal spellings; otherwise identical to the strict set. -/
def recognized_key_name (name : List Char) : Bool :=
  let lower := name.map tolowerChar
  decide (lower.length = 1 ∧ 'a' ≤ lower.headD ' ' ∧ lower.headD ' ' ≤ 'z')
  || decide (lower.length = 1 ∧ isDigitC (lower.headD ' ') = true)
  || decide (lower ∈ named_key_names)
  || is_fkey_name lower

/-! ## Helper lemmas -/

/-- Iterated `poll_pressed` on a cleared press flag only ever returns false. -/
theorem poll_pressed_results_of_clear :
    ∀ (k : Nat) (f : EdgeFlags), f.press = false →
      poll_pressed_results k f = List.replicate k false := by
  intro k
  induction k with
  | zero => intro f _; rfl
  | succ n ih =>
      intro f h
      simp only [poll_pressed_results, poll_pressed, h, List.replicate]
      exact congrArg (List.cons false) (ih _ rfl)

/-- Iterated `poll_released` on a cleared release flag only ever returns false. -/
theorem poll_released_results_of_clear :
    ∀ (k : Nat) (f : EdgeFlags), f.release = false →
      poll_released_results k f = List.replicate k false := by
  intro k
  induction k with
  | zero => intro f _; rfl
  | succ n ih =>
      intro f h
      simp only [poll_released_results, poll_released, h, List.replicate]
      exact congrArg (List.cons false) (ih _ rfl)

/-! ## Claims -/

/-- C1: the exact-match predicate over the required-modifier mask and the
live OR-combined logical modifier state returns true if and only if, for
each of the four modifier families, the family is held exactly when its
bit is in the required mask; so holding an extra unrequested modifier
makes the match fail. -/
theorem mods_match_exact (s : ModifierState) (m : Nat) :
    mods_match s m = true ↔
      ((s.ctrl_l || s.ctrl_r) = hasMod m MOD_CTRL
       ∧ (s.shift_l || s.shift_r) = hasMod m MOD_SHIFT
       ∧ (s.alt_l || s.alt_r) = hasMod m MOD_ALT
       ∧ (s.super_l || s.super_r) = hasMod m MOD_SUPER) := by
  obtain ⟨cl, cr, sl, sr, al, ar, ul, ur⟩ := s
  simp only [mods_match]
  generalize hasMod m MOD_CTRL = mc
  generalize hasMod m MOD_SHIFT = ms
  generalize hasMod m MOD_ALT = ma
  generalize hasMod m MOD_SUPER = mu
  revert mc ms ma mu cl cr sl sr al ar ul ur
  decide

/-- C3: on entry into TRANSCRIBING, the machine always returns to IDLE;
the external transcription engine is invoked exactly when the fetched
audio span is non-empty and speech was detected; and text is handed to
the injection component exactly when, additionally, the engine output
is non-empty after whitespace trimming (in which case the trimmed text
is what gets injected). -/
theorem transcribing_guard {α : Type} (pcmf32 : List α) (speech : Bool) (out : List Char) :
    (transcribing_step pcmf32 speech out).next = TState.IDLE
    ∧ (transcribing_step pcmf32 speech out).engine_invoked = (!pcmf32.isEmpty && speech)
    ∧ (transcribing_step pcmf32 speech out).injected =
        (if !pcmf32.isEmpty && speech && !(trim out).isEmpty
         then some (trim out) else none) := by
  unfold transcribing_step
  cases hp : pcmf32.isEmpty <;> cases speech <;> cases ht : (trim out).isEmpty <;>
    simp_all

/-- C4: the poll accessors have read-and-clear semantics: after an
activation sets the press flag, `poll_pressed` returns true on exactly
one call and false on every subsequent call until the next activation,
however many times it is called; `poll_released` behaves symmetrically
after a deactivation sets the release flag. -/
theorem poll_read_and_clear (f g : EdgeFlags) (k : Nat) :
    ((poll_pressed (set_press_flag f)).1 = true
      ∧ poll_pressed_results k (poll_pressed (set_press_flag f)).2 =
          List.replicate k false)
    ∧ ((poll_released (set_release_flag g)).1 = true
      ∧ poll_released_results k (poll_released (set_release_flag g)).2 =
          List.replicate k false) := by
  refine ⟨⟨rfl, ?_⟩, ⟨rfl, ?_⟩⟩
  · exact poll_pressed_results_of_clear k _ rfl
  · exact poll_released_results_of_clear k _ rfl

/-- A name outside the (amended) recognized set resolves to -1: the
resolver has no branch beyond single letters, single digits, the
named-key table and f-plus-digit-string names valuing 1-12. -/
theorem name_to_evdev_eq_neg_one_of_unrecognized (name : List Char)
    (h : recognized_key_name name = false) : name_to_evdev name = -1 := by
  unfold recognized_key_name at h
  unfold name_to_evdev
  simp only [Bool.or_eq_false_iff, decide_eq_false_iff_not] at h
  obtain ⟨⟨⟨h1, h2⟩, h3⟩, h4⟩ := h
  rw [if_neg h1, if_neg h2]
  simp only [named_key_names, List.mem_cons, List.not_mem_nil, or_false, not_or] at h3
  simp only [named_key_code, h3]
  simp only [or_self, if_false]
  by_cases hg : 2 ≤ (List.map tolowerChar name).length ∧
      (List.map tolowerChar name).headD ' ' = 'f'
  · rw [if_pos hg]
    cases hd : fkeyDigits 0 (List.map tolowerChar name).tail with
    | none => simp [hd]
    | some n =>
        unfold is_fkey_name at h4
        rw [hd] at h4
        have hcf : (decide (1 ≤ n) && decide (n ≤ 12)) = false := by
          rcases Bool.and_eq_false_iff.mp h4 with hab | hcf
          · exfalso
            rcases Bool.and_eq_false_iff.mp hab with ha | hb
            · have hg1 := hg.1
              simp only [decide_eq_false_iff_not, List.length_map] at ha
              simp only [List.length_map] at hg1
              exact ha hg1
            · rw [hg.2] at hb
              simp at hb
          · exact hcf
        have hn : ¬(1 ≤ n ∧ n ≤ 12) := by
          intro hc
          simp [hc.1, hc.2] at hcf
        simp [hd, hn]
  · rw [if_neg hg]

/-- C9 counterexample: the claim's universal clause fails at "f01": the
name is outside the recognized set as the claim lists it (not a letter,
a digit, a named key, or one of the twelve spellings f1-f12), yet the
resolver's digit loop accepts the leading zero and resolves it to
KEY_F1 rather than to the not-found result. -/
theorem fkeys_unknown_counterexample :
    recognized_key_name_strict (chars "f01") = false
    ∧ name_to_evdev (chars "f01") = KEY_F1
    ∧ name_to_evdev (chars "f01") ≠ -1 := by
  decide

/-- C9 (amended): the key-name resolver maps f1 through f10
(case-insensitively) to the contiguous codes KEY_F1 + (n-1), maps f11
and f12 by dedicated special cases to their own non-adjacent codes 87
and 88 rather than KEY_F1 + 10 and KEY_F1 + 11, and yields the
not-found result -1 on every name outside its recognized set, where
the recognized f-key spellings are an f followed by a digit string
whose value is 1-12 (leading zeros included) rather than only the
twelve literal spellings. -/
theorem fkeys_resolution_amended :
    ([chars "f1", chars "f2", chars "f3", chars "f4", chars "f5",
      chars "f6", chars "f7", chars "f8", chars "f9", chars "f10"].map name_to_evdev
      = [(KEY_F1 : Int) + 0, (KEY_F1 : Int) + 1, (KEY_F1 : Int) + 2,
         (KEY_F1 : Int) + 3, (KEY_F1 : Int) + 4, (KEY_F1 : Int) + 5,
         (KEY_F1 : Int) + 6, (KEY_F1 : Int) + 7, (KEY_F1 : Int) + 8,
         (KEY_F1 : Int) + 9])
    ∧ name_to_evdev (chars "f10") = KEY_F10
    ∧ name_to_evdev (chars "f11") = KEY_F11
    ∧ name_to_evdev (chars "f12") = KEY_F12
    ∧ name_to_evdev (chars "F11") = KEY_F11
    ∧ name_to_evdev (chars "f11") ≠ (KEY_F1 : Int) + 10
    ∧ name_to_evdev (chars "f12") ≠ (KEY_F1 : Int) + 11
    ∧ (∀ name : List Char,
        recognized_key_name name = false → name_to_evdev name = -1) := by
  exact ⟨by decide, by decide, by decide, by decide, by decide, by decide, by decide,
         name_to_evdev_eq_neg_one_of_unrecognized⟩

/-- Witness for C9 (amended): "volumeup" is outside the recognized set
and resolves to -1. -/
theorem fkeys_resolution_amended_witness :
    recognized_key_name (chars "volumeup") = false
    ∧ name_to_evdev (chars "volumeup") = -1 :=
  ⟨by decide,
   fkeys_resolution_amended.2.2.2.2.2.2.2 (chars "volumeup") (by decide)⟩

/-- C10: calling `TextOutput::type` with the empty string returns true
and performs no delivery at all: neither the clipboard path nor the
keystroke-simulation path is entered, no external command is run, and
the clipboard is left unchanged (the world, including the subprocess
log and clipboard content, is returned untouched). -/
theorem type_empty_noop (env : CmdEnv) (use_clipboard : Bool) (w : OutWorld) :
    TextOutput.type env use_clipboard [] w = (true, w) := rfl

/-- C2: in the Recording state, a manual stop trigger (release edge in
push-to-talk mode, press edge or toggle signal in toggle mode) that
arrives before 300 ms have elapsed since `record_start` is silently
dropped — the session is returned unchanged and recording continues —
while a trigger at or past the threshold forces `speech_detected` and
moves the machine to Transcribing. -/
theorem recording_debounce (p : typer_params) (inp : RecInput) (s : Session)
    (hrec : s.state = TState.RECORDING)
    (hstop : stop_trigger p inp = true) :
    (inp.now - s.record_start < 300 →
       recording_step p inp s = s
       ∧ (recording_step p inp s).state = TState.RECORDING)
    ∧ (300 ≤ inp.now - s.record_start →
       (recording_step p inp s).state = TState.TRANSCRIBING
       ∧ (recording_step p inp s).speech_detected = true) := by
  unfold recording_step
  rw [if_pos hstop]
  constructor
  · intro h
    rw [if_pos h]
    exact ⟨rfl, hrec⟩
  · intro h
    rw [if_neg (by omega)]
    exact ⟨rfl, rfl⟩

/-- Witness for C2: with default parameters in toggle mode, a press edge
at `start_time + 100` ms is ignored and one at `start_time + 301` ms
transitions to Transcribing with `speech_detected = true`. -/
theorem recording_debounce_witness :
    (recording_step ⟨1500, 30000, false⟩ ⟨false, true, false, 100, 0, true⟩
        ⟨TState.RECORDING, 0, 0, false⟩ = ⟨TState.RECORDING, 0, 0, false⟩)
    ∧ (recording_step ⟨1500, 30000, false⟩ ⟨false, true, false, 301, 0, true⟩
        ⟨TState.RECORDING, 0, 0, false⟩).state = TState.TRANSCRIBING
    ∧ (recording_step ⟨1500, 30000, false⟩ ⟨false, true, false, 301, 0, true⟩
        ⟨TState.RECORDING, 0, 0, false⟩).speech_detected = true :=
  ⟨((recording_debounce ⟨1500, 30000, false⟩ ⟨false, true, false, 100, 0, true⟩
      ⟨TState.RECORDING, 0, 0, false⟩ rfl rfl).1 (by decide)).1,
   ((recording_debounce ⟨1500, 30000, false⟩ ⟨false, true, false, 301, 0, true⟩
      ⟨TState.RECORDING, 0, 0, false⟩ rfl rfl).2 (by decide)).1,
   ((recording_debounce ⟨1500, 30000, false⟩ ⟨false, true, false, 301, 0, true⟩
      ⟨TState.RECORDING, 0, 0, false⟩ rfl rfl).2 (by decide)).2⟩

/-- C6: during Recording, when no stop trigger fires and the maximum
recording time has not elapsed, a fetched trailing buffer shorter than
`vad_min_samples = sample_rate*2 + 1` samples makes the whole VAD block
a no-op: the session is returned unchanged — in particular
`speech_detected` is not flipped and `silence_start` is not reset —
regardless of the buffer content (the `vad_silent` oracle). -/
theorem vad_min_guard (p : typer_params) (inp : RecInput) (s : Session)
    (hstop : stop_trigger p inp = false)
    (hmax : inp.now - s.record_start < p.max_record_ms)
    (hlen : inp.vad_len < vad_min_samples) :
    recording_step p inp s = s
    ∧ vad_min_samples = WHISPER_SAMPLE_RATE * 2 + 1 := by
  refine ⟨?_, rfl⟩
  unfold recording_step
  rw [if_neg (by simp [hstop]), if_neg (by omega), if_neg (by omega)]

/-- Witness for C6: a 32000-sample buffer (one sample short of the
minimum) whose content registers as active speech still leaves the
session untouched. -/
theorem vad_min_guard_witness :
    recording_step ⟨1500, 30000, false⟩ ⟨false, false, false, 100, 32000, false⟩
        ⟨TState.RECORDING, 0, 0, false⟩ = ⟨TState.RECORDING, 0, 0, false⟩
    ∧ vad_min_samples = WHISPER_SAMPLE_RATE * 2 + 1 :=
  vad_min_guard ⟨1500, 30000, false⟩ ⟨false, false, false, 100, 32000, false⟩
    ⟨TState.RECORDING, 0, 0, false⟩ (by decide) (by decide) (by decide)

/-- C7: an iteration of the background loop that begins with the
needs-rescan flag set resets all eight modifier booleans to false and
clears the active-hotkey flag before the fresh device scan, and after
the scan the listener holds exactly the freshly found handles — every
previously held handle was closed first, so none leaks. -/
theorem rescan_resets_state (found : List Nat) (s : ListenerState)
    (h : s.needs_rescan = true) :
    (rescan_step found s).mods = allModsFalse
    ∧ (rescan_step found s).hotkey_active = false
    ∧ (rescan_step found s).fds = found := by
  unfold rescan_step open_keyboards
  rw [if_pos h]
  cases hf : found.isEmpty <;> simp [hf]

/-- Witness for C7: a listener with live modifier state, an active
hotkey and a stale handle, flagged for rescan, ends up with all-false
modifiers, an inactive hotkey and exactly the two freshly found
handles. -/
theorem rescan_resets_state_witness :
    (rescan_step [3, 5]
        ⟨⟨true, false, true, false, true, false, true, false⟩, true, true, [7]⟩).mods
      = allModsFalse
    ∧ (rescan_step [3, 5]
        ⟨⟨true, false, true, false, true, false, true, false⟩, true, true, [7]⟩).hotkey_active
      = false
    ∧ (rescan_step [3, 5]
        ⟨⟨true, false, true, false, true, false, true, false⟩, true, true, [7]⟩).fds
      = [3, 5] :=
  rescan_resets_state [3, 5]
    ⟨⟨true, false, true, false, true, false, true, false⟩, true, true, [7]⟩ rfl

/-- C8: if a processed key event is a release of one of the eight
modifier keys while the hotkey is active and the exact-match predicate
no longer holds after the modifier-state update, the hotkey is
force-deactivated in that same step: the release flag is set and the
callback is invoked exactly once with the release edge, with no release
event on the trigger key required. -/
theorem modifier_release_deactivates (key_code modmask : Nat) (ev : KeyEv)
    (s : ThreadState)
    (htype : ev.type = EV_KEY) (hval : ev.value = 0)
    (hmod : is_modifier ev.code = true) (hact : s.hotkey_active = true)
    (hnm : mods_match (update_modifier ev.code false s.mods) modmask = false) :
    (process_event key_code modmask ev s).1.hotkey_active = false
    ∧ (process_event key_code modmask ev s).1.flags.release = true
    ∧ (process_event key_code modmask ev s).2 = [false] := by
  by_cases hc : ev.code = key_code
  · rw [hc] at hmod hnm
    simp [process_event, htype, hval, hmod, hact, hnm, hc, set_release_flag]
  · simp [process_event, htype, hval, hmod, hact, hnm, hc, set_release_flag]

/-- Witness for C8: with the hotkey ctrl+period active and only left
ctrl held, a left-ctrl release event deactivates the hotkey, sets the
release flag and emits one release callback. -/
theorem modifier_release_deactivates_witness :
    ((process_event KEY_DOT MOD_CTRL ⟨EV_KEY, KEY_LEFTCTRL, 0⟩
        ⟨⟨true, false, false, false, false, false, false, false⟩, true,
         ⟨false, false⟩⟩).1.hotkey_active = false)
    ∧ ((process_event KEY_DOT MOD_CTRL ⟨EV_KEY, KEY_LEFTCTRL, 0⟩
        ⟨⟨true, false, false, false, false, false, false, false⟩, true,
         ⟨false, false⟩⟩).1.flags.release = true)
    ∧ ((process_event KEY_DOT MOD_CTRL ⟨EV_KEY, KEY_LEFTCTRL, 0⟩
        ⟨⟨true, false, false, false, false, false, false, false⟩, true,
         ⟨false, false⟩⟩).2 = [false]) :=
  modifier_release_deactivates KEY_DOT MOD_CTRL ⟨EV_KEY, KEY_LEFTCTRL, 0⟩
    ⟨⟨true, false, false, false, false, false, false, false⟩, true, ⟨false, false⟩⟩
    rfl rfl (by decide) rfl (by decide)

/-- The modifier fold fails exactly when some token fails to parse as a
modifier. -/
theorem parse_mods_eq_none_iff (ts : List (List Char)) :
    ∀ acc, (parse_mods acc ts = none ↔ ∃ t ∈ ts, parse_mod t = none) := by
  induction ts with
  | nil => intro acc; simp [parse_mods]
  | cons t ts ih =>
      intro acc
      simp only [parse_mods]
      cases h : parse_mod t with
      | none => simp [h]
      | some b => simp [h, ih]

/-- C5: hotkey-string parsing splits on plus, trims whitespace, drops
empty tokens, takes the last token as the trigger key and the preceding
tokens as modifiers; it is deterministic and case-insensitive
("ctrl+period" yields the DOT key with mask {CTRL}, "Super+V" the V key
with mask {SUPER}); and it fails if and only if the token list is
empty, some non-final token is outside the modifier alias families, or
the final token is unrecognized by the key-name resolver. -/
theorem hotkey_init_spec (s : String) :
    hotkey_init "ctrl+period" = some ⟨(KEY_DOT : Int), MOD_CTRL⟩
    ∧ hotkey_init "Super+V" = some ⟨(KEY_V : Int), MOD_SUPER⟩
    ∧ (hotkey_init s = none ↔
        hotkey_tokens s = []
        ∨ (∃ t ∈ (hotkey_tokens s).dropLast, parse_mod t = none)
        ∨ (∃ t, (hotkey_tokens s).getLast? = some t ∧ name_to_evdev t < 0)) := by
  refine ⟨by decide, by decide, ?_⟩
  unfold hotkey_init
  cases h : hotkey_tokens s with
  | nil => simp
  | cons p ps =>
      have hlast : (p :: ps).getLast? = some ((p :: ps).getLast (List.cons_ne_nil p ps)) :=
        List.getLast?_eq_getLast _ _
      cases hm : parse_mods 0 ((p :: ps).dropLast) with
      | none =>
          have hex := (parse_mods_eq_none_iff _ 0).mp hm
          simp [hm, hex]
      | some mask =>
          have hnone : ¬ ∃ t ∈ (p :: ps).dropLast, parse_mod t = none := by
            intro hex
            rw [(parse_mods_eq_none_iff _ 0).mpr hex] at hm
            exact Option.noConfusion hm
          by_cases hkc : name_to_evdev ((p :: ps).getLast (List.cons_ne_nil p ps)) < 0
          · simp [hm, hlast, hkc, hnone]
          · simp [hm, hlast, hkc, hnone]
